import Mathlib

/-!
Verification of the Spotify-Project backend (Express + Mongo + Spotify client).

The definitions below are a shallow embedding of the repository's JavaScript:

* `server.js`'s `GET /api/recommendations` handler becomes the pure seed
  builder `buildSeeds` (query-parameter truthiness, mood switch, manual
  overrides, user-profile step, default genres);
* `spotify.js`'s `getAccessToken` token cache becomes explicit state passing
  over `TokenCache` with times in integer milliseconds;
* `spotify.js`'s `searchTracks` and `getRecommendations` become functions
  parameterised by the modelled upstream response;
* the favorites and user-creation handlers of `server.js` become pure
  functions over lists of `TrackRef` / `UserDoc`.

JavaScript numbers are modelled as rationals (`ℚ`); a query parameter that is
present is an `Option String` (with explicit truthiness checks mirroring
`if (param)`), except the numeric `energy_level` / `dance_level` parameters,
which are modelled as the parsed rational of a truthy numeric string.
-/

namespace SpotifyProject

/-- A saved track inside a user profile (`models/User.js` savedTracks entry). -/
structure TrackRef where
  trackId : String
  name : String
  artist : String
  album : String
  imageUrl : String
  previewUrl : String
  deriving Repr, DecidableEq

/-- The preference triple stored on a user document (`models/User.js`). -/
structure Preferences where
  energy : ℚ
  danceability : ℚ
  valence : ℚ
  deriving Repr, DecidableEq

/-- A user document as the handlers read it.  `preferences` is an `Option`
because the handler checks `user && user.preferences` before using it. -/
structure UserDoc where
  name : String
  email : String
  favoriteGenres : List String
  preferences : Option Preferences
  savedTracks : List TrackRef
  deriving Repr, DecidableEq

/-- The `seeds` object built by the `GET /api/recommendations` handler in
`server.js`, plus the extra fields that `getRecommendations` in `spotify.js`
reads (`target_popularity`, range bounds) or ignores (`limit`). -/
structure Seeds where
  seed_genres : Option (List String)
  seed_artists : Option (List String)
  seed_tracks : Option (List String)
  target_valence : Option ℚ
  target_energy : Option ℚ
  target_danceability : Option ℚ
  target_popularity : Option ℚ
  min_instrumentalness : Option ℚ
  min_energy : Option ℚ
  max_energy : Option ℚ
  min_danceability : Option ℚ
  max_danceability : Option ℚ
  min_valence : Option ℚ
  max_valence : Option ℚ
  min_tempo : Option ℚ
  max_tempo : Option ℚ
  limit : Option ℚ
  deriving Repr, DecidableEq

/-- The empty `seeds = {}` object the handler starts from. -/
def emptySeeds : Seeds :=
  { seed_genres := none, seed_artists := none, seed_tracks := none
    target_valence := none, target_energy := none, target_danceability := none
    target_popularity := none, min_instrumentalness := none
    min_energy := none, max_energy := none
    min_danceability := none, max_danceability := none
    min_valence := none, max_valence := none
    min_tempo := none, max_tempo := none, limit := none }

/-- The query parameters of `GET /api/recommendations`.  String parameters are
`Option String` (absent = `none`); `energy_level` / `dance_level` are the
parsed rational value of a truthy numeric parameter string (absent or empty
parameter = `none`, mirroring `if (energy_level)` followed by `parseFloat`). -/
structure RecQuery where
  seed_genres : Option String
  seed_artists : Option String
  seed_tracks : Option String
  user_id : Option String
  mood : Option String
  energy_level : Option ℚ
  dance_level : Option ℚ
  deriving Repr, DecidableEq

/-- A request with no query parameters. -/
def emptyQuery : RecQuery :=
  { seed_genres := none, seed_artists := none, seed_tracks := none
    user_id := none, mood := none, energy_level := none, dance_level := none }

/-- JavaScript truthiness of an optional string parameter:
absent or empty strings are falsy. -/
def truthy : Option String → Bool
  | none => false
  | some s => s != ""

/-- `if (param) seeds.field = param.split(',')`: a truthy raw seed parameter
replaces the field with its comma-split list, otherwise the field is kept. -/
def splitParam : Option String → Option (List String) → Option (List String)
  | some v, old => if v = "" then old else some (v.splitOn ",")
  | none, old => old

/-- The basic-seeds step of the handler (`seed_genres` / `seed_artists` /
`seed_tracks` comma-split into the seeds object). -/
def applySeedParams (q : RecQuery) (s : Seeds) : Seeds :=
  { s with
    seed_genres := splitParam q.seed_genres s.seed_genres
    seed_artists := splitParam q.seed_artists s.seed_artists
    seed_tracks := splitParam q.seed_tracks s.seed_tracks }

/-- The `switch (mood)` of the handler: each recognised mood keyword sets its
fixed target fields; any other keyword falls through and changes nothing. -/
def applyMood (mood : String) (s : Seeds) : Seeds :=
  if mood = "happy" then
    { s with target_valence := some 0.8, target_energy := some 0.7 }
  else if mood = "sad" then
    { s with target_valence := some 0.2, target_energy := some 0.3 }
  else if mood = "energetic" then
    { s with target_energy := some 0.9, target_danceability := some 0.8 }
  else if mood = "chill" then
    { s with target_energy := some 0.3, target_valence := some 0.5 }
  else if mood = "focus" then
    { s with target_energy := some 0.4, target_valence := some 0.6,
             min_instrumentalness := some 0.3 }
  else s

/-- `if (mood) switch(mood) {...}`: the mood switch runs only for a truthy
mood parameter. -/
def applyMoodParam (mood : Option String) (s : Seeds) : Seeds :=
  match mood with
  | some m => if m = "" then s else applyMood m s
  | none => s

/-- The manual preference overrides: a truthy `energy_level` / `dance_level`
parameter overwrites the corresponding target with its parsed value. -/
def applyOverrides (q : RecQuery) (s : Seeds) : Seeds :=
  let s1 :=
    match q.energy_level with
    | some v => { s with target_energy := some v }
    | none => s
  match q.dance_level with
  | some v => { s1 with target_danceability := some v }
  | none => s1

/-- The outcome of `User.findById(user_id)` inside the handler's `try`:
either the lookup throws (`Except.error`), finds nothing (`Except.ok none`),
or returns a document. -/
abbrev UserLookup := Except String (Option UserDoc)

/-- Body of the handler's `try` block: a found user with a truthy
`preferences` overwrites the three targets, and a non-empty `favoriteGenres`
replaces the genre seed with its first 3 entries; a lookup error is caught
and skipped. -/
def applyProfile (lookup : UserLookup) (s : Seeds) : Seeds :=
  match lookup with
  | .error _ => s
  | .ok none => s
  | .ok (some u) =>
    match u.preferences with
    | none => s
    | some p =>
      let s1 := { s with
        target_energy := some p.energy
        target_danceability := some p.danceability
        target_valence := some p.valence }
      if u.favoriteGenres = [] then s1
      else { s1 with seed_genres := some (u.favoriteGenres.take 3) }

/-- `if (user_id) { try { ... } catch { ... } }`: the profile step runs only
for a truthy `user_id` parameter. -/
def applyProfileParam (uid : Option String) (lookup : UserLookup) (s : Seeds) : Seeds :=
  match uid with
  | some u => if u = "" then s else applyProfile lookup s
  | none => s

/-- The default-genres step: `['pop','rock','hip-hop']` exactly when none of
the three seed kinds is set after all earlier steps. -/
def applyDefaultGenres (s : Seeds) : Seeds :=
  if s.seed_genres.isNone && s.seed_artists.isNone && s.seed_tracks.isNone then
    { s with seed_genres := some ["pop", "rock", "hip-hop"] }
  else s

/-- The seeds object after the basic-seed, mood, override and profile steps,
before the default-genres step. -/
def seedsBeforeDefault (q : RecQuery) (lookup : UserLookup) : Seeds :=
  applyProfileParam q.user_id lookup
    (applyOverrides q (applyMoodParam q.mood (applySeedParams q emptySeeds)))

/-- The full seed builder of `GET /api/recommendations`. -/
def buildSeeds (q : RecQuery) (lookup : UserLookup) : Seeds :=
  applyDefaultGenres (seedsBeforeDefault q lookup)

/-- The seed builder with the profile step removed: what the handler computes
from the mood, override and default steps alone. -/
def buildSeedsNoProfile (q : RecQuery) : Seeds :=
  applyDefaultGenres
    (applyOverrides q (applyMoodParam q.mood (applySeedParams q emptySeeds)))

/-- The user profile the handler actually personalises with: present exactly
when `user_id` is truthy, the lookup succeeds with a document, and that
document's `preferences` is truthy. -/
def resolvedProfile (q : RecQuery) (lookup : UserLookup) : Option UserDoc :=
  match q.user_id with
  | none => none
  | some uid =>
    if uid = "" then none
    else
      match lookup with
      | .error _ => none
      | .ok none => none
      | .ok (some u) => if u.preferences.isSome then some u else none

/-- The `GET /api/recommendations` response: `(status, payload)`.  The handler
answers 200 with the recommendations and the applied seeds when the upstream
call succeeds, and 500 when it throws.  Tracks are modelled by their ids. -/
def recommendationsHandler (q : RecQuery) (lookup : UserLookup)
    (upstream : Except String (List String)) :
    Nat × Option (List String × Seeds) :=
  match upstream with
  | .ok recs => (200, some (recs, buildSeeds q lookup))
  | .error _ => (500, none)

/-! ## Catalog client (`spotify.js`) -/

/-- The error taxonomy of the spec mapped onto the client's throw sites:
`validation` for rejected input, `upstream` for catalog transport or shape
failures, `auth` for token-exchange failures. -/
inductive SpotifyError
  | validation (msg : String)
  | upstream (msg : String)
  | auth (msg : String)
  deriving Repr, DecidableEq

/-- The `tracks` object of a search response; `items` is `none` when the
field is missing. -/
structure TracksObject where
  items : Option (List String)
  deriving Repr, DecidableEq

/-- A parsed search response body; `tracks` is `none` when the field is
missing.  Track objects are modelled by their ids. -/
structure SearchResponse where
  tracks : Option TracksObject
  deriving Repr, DecidableEq

/-- What a call to `searchTracks` did: whether `makeSpotifyRequest` was
reached, which `limit` the endpoint was built with, and the outcome. -/
structure SearchCall where
  networkCall : Bool
  limitUsed : Option Nat
  result : Except SpotifyError (List String)
  deriving Repr

/-- JavaScript's `String.prototype.trim()`: strips leading and trailing
whitespace.  Written by structural recursion over the character list so that
concrete instances evaluate. -/
def jsTrim (s : String) : String :=
  ⟨((s.data.dropWhile Char.isWhitespace).reverse.dropWhile Char.isWhitespace).reverse⟩

/-- `searchTracks(query, limit)` of `spotify.js`, parameterised by the
modelled outcome of `makeSpotifyRequest` (which is only consulted when the
query survives validation): an empty or whitespace-only query throws before
any request; a response without `tracks.items` throws
`Invalid search response format`; otherwise the `tracks.items` list is
returned as is. -/
def searchTracks (query : String) (lim : Nat)
    (upstream : Except String SearchResponse) : SearchCall :=
  if jsTrim query = "" then
    { networkCall := false, limitUsed := none
      result := .error (.validation "Search query cannot be empty") }
  else
    match upstream with
    | .error e =>
      { networkCall := true, limitUsed := some lim, result := .error (.upstream e) }
    | .ok resp =>
      match resp.tracks with
      | none =>
        { networkCall := true, limitUsed := some lim
          result := .error (.upstream "Invalid search response format") }
      | some t =>
        match t.items with
        | none =>
          { networkCall := true, limitUsed := some lim
            result := .error (.upstream "Invalid search response format") }
        | some items =>
          { networkCall := true, limitUsed := some lim, result := .ok items }

/-- `searchTracks` with the default parameter `limit = 20`. -/
def searchTracksDefault (query : String)
    (upstream : Except String SearchResponse) : SearchCall :=
  searchTracks query 20 upstream

/-! ## Recommendation request serialization (`getRecommendations`) -/

/-- A query-parameter value: a string or a serialized number. -/
inductive ParamValue
  | str (s : String)
  | num (q : ℚ)
  deriving Repr, DecidableEq

/-- The ordered query-parameter list built by `URLSearchParams`. -/
abbrev Params := List (String × ParamValue)

/-- `if (seeds.x !== undefined) params.append(key, seeds.x)` for a numeric
seed field. -/
def optNumParam (k : String) : Option ℚ → Params
  | none => []
  | some v => [(k, .num v)]

/-- The seed-kind branch of `getRecommendations`: genres, else artists, else
tracks (each comma-joined), else the default genre string. -/
def seedKindParams (s : Seeds) : Params :=
  match s.seed_genres with
  | some gs => [("seed_genres", .str (String.intercalate "," gs))]
  | none =>
    match s.seed_artists with
    | some arts => [("seed_artists", .str (String.intercalate "," arts))]
    | none =>
      match s.seed_tracks with
      | some trks => [("seed_tracks", .str (String.intercalate "," trks))]
      | none => [("seed_genres", .str "pop,rock,hip-hop")]

/-- The full parameter list `getRecommendations` serializes into
`/v1/recommendations?...`: one seed kind, the defined numeric fields in the
code's order, then the fixed `limit=20` and `market=US`. -/
def getRecommendationsParams (s : Seeds) : Params :=
  seedKindParams s
    ++ optNumParam "target_energy" s.target_energy
    ++ optNumParam "target_danceability" s.target_danceability
    ++ optNumParam "target_valence" s.target_valence
    ++ optNumParam "target_popularity" s.target_popularity
    ++ optNumParam "min_energy" s.min_energy
    ++ optNumParam "max_energy" s.max_energy
    ++ optNumParam "min_danceability" s.min_danceability
    ++ optNumParam "max_danceability" s.max_danceability
    ++ optNumParam "min_valence" s.min_valence
    ++ optNumParam "max_valence" s.max_valence
    ++ optNumParam "min_tempo" s.min_tempo
    ++ optNumParam "max_tempo" s.max_tempo
    ++ [("limit", .str "20"), ("market", .str "US")]

/-- The parameter names `getRecommendations` can ever emit. -/
def allowedParamKeys : List String :=
  ["seed_genres", "seed_artists", "seed_tracks",
   "target_energy", "target_danceability", "target_valence", "target_popularity",
   "min_energy", "max_energy", "min_danceability", "max_danceability",
   "min_valence", "max_valence", "min_tempo", "max_tempo",
   "limit", "market"]

/-! ## Access-token cache (`getAccessToken`) -/

/-- The module-level `accessToken` / `tokenExpiry` pair of `spotify.js`;
times are integer milliseconds as in `Date.now()`. -/
structure TokenCache where
  accessToken : Option String
  tokenExpiry : Option ℤ
  deriving Repr, DecidableEq

/-- The guard `accessToken && tokenExpiry && Date.now() < tokenExpiry`,
with JavaScript truthiness of the string and of the number spelled out. -/
def cacheValid (c : TokenCache) (now : ℤ) : Bool :=
  match c.accessToken, c.tokenExpiry with
  | some t, some e => (t != "") && (e != 0) && decide (now < e)
  | _, _ => false

/-- A parsed token-endpoint body: `access_token` is `none` when the field is
missing, and the empty string is falsy like a missing field. -/
structure TokenBody where
  access_token : Option String
  expires_in : ℤ
  deriving Repr, DecidableEq

/-- The modelled outcome of the client-credentials exchange: a transport
error (including timeout), or an HTTP response whose body either failed to
parse (`none`) or parsed to a `TokenBody`. -/
inductive TokenWire
  | transportError (msg : String)
  | response (statusCode : Nat) (body : Option TokenBody)
  deriving Repr, DecidableEq

/-- The client-credentials exchange performed once the cache check failed:
a non-200 status, unparsable body, or missing/empty `access_token` rejects
with an auth error and leaves the cache; a successful exchange stores the
token with expiry `now + (expires_in - 60) * 1000` (refresh one minute
early) and returns it. -/
def refreshAccessToken (c : TokenCache) (now : ℤ) (wire : TokenWire) :
    TokenCache × Except SpotifyError String :=
  match wire with
  | .transportError msg => (c, .error (.auth msg))
  | .response code body =>
    if code ≠ 200 then
      (c, .error (.auth ("Token request failed: " ++ toString code)))
    else
      match body with
      | none => (c, .error (.auth "token response parse error"))
      | some b =>
        match b.access_token with
        | none => (c, .error (.auth "No access token received"))
        | some t =>
          if t = "" then (c, .error (.auth "No access token received"))
          else
            ({ accessToken := some t
               tokenExpiry := some (now + (b.expires_in - 60) * 1000) },
             .ok t)

/-- `getAccessToken` of `spotify.js`, with the module state passed
explicitly: returns the new state, the result, and whether the exchange was
performed.  A valid cached token is returned with no request; otherwise the
exchange of `refreshAccessToken` runs. -/
def getAccessToken (c : TokenCache) (now : ℤ) (wire : TokenWire) :
    TokenCache × Except SpotifyError String × Bool :=
  if cacheValid c now then
    (c, .ok (c.accessToken.getD ""), false)
  else
    ((refreshAccessToken c now wire).1, (refreshAccessToken c now wire).2, true)

/-! ## Favorites handlers (`server.js`) -/

/-- `POST /api/users/:userId/favorites` on a found user: a track whose
`trackId` is already in `savedTracks` answers 400 and leaves the list
unchanged; otherwise the track is pushed and the handler answers 200.
The result is `(status, savedTracks after the call)`. -/
def addFavorite (saved : List TrackRef) (t : TrackRef) : Nat × List TrackRef :=
  if saved.any (fun x => x.trackId == t.trackId) then (400, saved)
  else (200, saved ++ [t])

/-- `DELETE /api/users/:userId/favorites/:trackId` on a found user: filters
the list and always answers 200 with the filtered list. -/
def removeFavorite (saved : List TrackRef) (tid : String) : Nat × List TrackRef :=
  (200, saved.filter (fun x => x.trackId != tid))

/-! ## User creation (`POST /api/users`) -/

/-- The request body of `POST /api/users`; `favoriteGenres` is `none` when
the field is absent (falsy). -/
structure CreateUserBody where
  name : String
  email : String
  favoriteGenres : Option (List String)
  deriving Repr, DecidableEq

/-- The document built for a new user: the body's name and email, the body's
genres or the `['pop','rock']` default, and the fixed 0.5 preference triple. -/
def newUserDoc (b : CreateUserBody) : UserDoc :=
  { name := b.name, email := b.email
    favoriteGenres := b.favoriteGenres.getD ["pop", "rock"]
    preferences := some { energy := 0.5, danceability := 0.5, valence := 0.5 }
    savedTracks := [] }

/-- `POST /api/users` over a modelled store (list of documents in insertion
order; `findOne` returns the first match): an existing email answers 200
with the stored document and writes nothing; otherwise the new document is
saved and answered with 201.  The result is `(status, answered user, store
after the call)`. -/
def createUser (store : List UserDoc) (b : CreateUserBody) :
    Nat × UserDoc × List UserDoc :=
  match store.find? (fun u => u.email == b.email) with
  | some u => (200, u, store)
  | none =>
    let u := newUserDoc b
    (201, u, store ++ [u])

end SpotifyProject


namespace SpotifyProject

theorem applyDefaultGenres_target_energy (s : Seeds) :
    (applyDefaultGenres s).target_energy = s.target_energy := by
  unfold applyDefaultGenres; split <;> rfl

theorem applyDefaultGenres_target_danceability (s : Seeds) :
    (applyDefaultGenres s).target_danceability = s.target_danceability := by
  unfold applyDefaultGenres; split <;> rfl

theorem applyDefaultGenres_target_valence (s : Seeds) :
    (applyDefaultGenres s).target_valence = s.target_valence := by
  unfold applyDefaultGenres; split <;> rfl

theorem applyDefaultGenres_min_instrumentalness (s : Seeds) :
    (applyDefaultGenres s).min_instrumentalness = s.min_instrumentalness := by
  unfold applyDefaultGenres; split <;> rfl

theorem applyDefaultGenres_of_genres_some (s : Seeds) (g : List String)
    (h : s.seed_genres = some g) : applyDefaultGenres s = s := by
  unfold applyDefaultGenres
  simp [h]

theorem applyOverrides_target_energy (q : RecQuery) (s : Seeds) :
    (applyOverrides q s).target_energy
      = match q.energy_level with
        | some v => some v
        | none => s.target_energy := by
  unfold applyOverrides
  cases q.energy_level <;> cases q.dance_level <;> rfl

theorem applyOverrides_target_danceability (q : RecQuery) (s : Seeds) :
    (applyOverrides q s).target_danceability
      = match q.dance_level with
        | some v => some v
        | none => s.target_danceability := by
  unfold applyOverrides
  cases q.energy_level <;> cases q.dance_level <;> rfl

theorem applyOverrides_target_valence (q : RecQuery) (s : Seeds) :
    (applyOverrides q s).target_valence = s.target_valence := by
  unfold applyOverrides
  cases q.energy_level <;> cases q.dance_level <;> rfl

theorem applyOverrides_min_instrumentalness (q : RecQuery) (s : Seeds) :
    (applyOverrides q s).min_instrumentalness = s.min_instrumentalness := by
  unfold applyOverrides
  cases q.energy_level <;> cases q.dance_level <;> rfl

theorem applyProfileParam_eq_self (q : RecQuery) (lookup : UserLookup)
    (h : resolvedProfile q lookup = none) (s : Seeds) :
    applyProfileParam q.user_id lookup s = s := by
  unfold applyProfileParam
  unfold resolvedProfile at h
  match huid : q.user_id with
  | none => rfl
  | some uid =>
    rw [huid] at h
    by_cases he : uid = ""
    · simp [he]
    · simp only [he, if_false] at h ⊢
      match lookup with
      | .error _ => rfl
      | .ok none => rfl
      | .ok (some u) =>
        simp only [applyProfile]
        match hp : u.preferences with
        | none => rfl
        | some p => simp [hp] at h

end SpotifyProject

namespace SpotifyProject

/-- C1: for every mood keyword in the table the mood step sets exactly the
listed fields (happy: valence 0.8 / energy 0.7; sad: 0.2 / 0.3; energetic:
energy 0.9 / danceability 0.8; chill: energy 0.3 / valence 0.5; focus:
energy 0.4 / valence 0.6 / min_instrumentalness 0.3) and changes no other
seed field; any unrecognized keyword changes no field at all. -/
theorem mood_step_matches_table (s : Seeds) (m : String) :
    applyMood "happy" s = { s with target_valence := some 0.8, target_energy := some 0.7 }
  ∧ applyMood "sad" s = { s with target_valence := some 0.2, target_energy := some 0.3 }
  ∧ applyMood "energetic" s = { s with target_energy := some 0.9, target_danceability := some 0.8 }
  ∧ applyMood "chill" s = { s with target_energy := some 0.3, target_valence := some 0.5 }
  ∧ applyMood "focus" s
      = { s with
          target_energy := some 0.4
          target_valence := some 0.6
          min_instrumentalness := some 0.3 }
  ∧ (m ∉ (["happy", "sad", "energetic", "chill", "focus"] : List String) → applyMood m s = s) := by
  refine ⟨by simp [applyMood], by simp [applyMood], by simp [applyMood], by simp [applyMood],
    by simp [applyMood], fun h => ?_⟩
  simp only [List.mem_cons, List.not_mem_nil, or_false, not_or] at h
  simp [applyMood, h.1, h.2.1, h.2.2.1, h.2.2.2.1, h.2.2.2.2]

theorem mood_step_matches_table_witness :
    applyMood "party" emptySeeds = emptySeeds
  ∧ applyMood "happy" emptySeeds
      = { emptySeeds with target_valence := some 0.8, target_energy := some 0.7 } := by
  have h := mood_step_matches_table emptySeeds "party"
  exact ⟨h.2.2.2.2.2 (by decide), h.1⟩

/-- C2: with no user profile resolved, an explicit `energy_level`
(resp. `dance_level`) parameter makes the built seed's target_energy
(resp. target_danceability) equal the parsed parameter, overwriting the
mood's value, while the mood-set valence and instrumentalness fields are
retained; in particular `mood=happy&energy_level=0.1` yields
target_valence 0.8 and target_energy 0.1. -/
theorem override_overwrites_mood (q : RecQuery) (lookup : UserLookup) (e d : ℚ)
    (hprof : resolvedProfile q lookup = none) :
    (q.energy_level = some e → (buildSeeds q lookup).target_energy = some e)
  ∧ (q.dance_level = some d → (buildSeeds q lookup).target_danceability = some d)
  ∧ (buildSeeds q lookup).target_valence
      = (applyMoodParam q.mood (applySeedParams q emptySeeds)).target_valence
  ∧ (buildSeeds q lookup).min_instrumentalness
      = (applyMoodParam q.mood (applySeedParams q emptySeeds)).min_instrumentalness
  ∧ (buildSeeds { emptyQuery with mood := some "happy", energy_level := some 0.1 }
        (Except.ok none)).target_valence = some 0.8
  ∧ (buildSeeds { emptyQuery with mood := some "happy", energy_level := some 0.1 }
        (Except.ok none)).target_energy = some 0.1 := by
  have hb : buildSeeds q lookup
      = applyDefaultGenres
          (applyOverrides q (applyMoodParam q.mood (applySeedParams q emptySeeds))) := by
    unfold buildSeeds seedsBeforeDefault
    rw [applyProfileParam_eq_self q lookup hprof]
  refine ⟨fun he => ?_, fun hd => ?_, ?_, ?_, ?_, ?_⟩
  · rw [hb, applyDefaultGenres_target_energy, applyOverrides_target_energy, he]
  · rw [hb, applyDefaultGenres_target_danceability, applyOverrides_target_danceability, hd]
  · rw [hb, applyDefaultGenres_target_valence, applyOverrides_target_valence]
  · rw [hb, applyDefaultGenres_min_instrumentalness, applyOverrides_min_instrumentalness]
  · simp [buildSeeds, seedsBeforeDefault, applyProfileParam, applyOverrides, applyMoodParam,
      applyMood, applySeedParams, splitParam, applyDefaultGenres, emptyQuery, emptySeeds]
  · simp [buildSeeds, seedsBeforeDefault, applyProfileParam, applyOverrides, applyMoodParam,
      applyMood, applySeedParams, splitParam, applyDefaultGenres, emptyQuery, emptySeeds]

theorem override_overwrites_mood_witness :
    resolvedProfile { emptyQuery with mood := some "happy", energy_level := some 0.1 }
      (Except.ok none) = none
  ∧ (buildSeeds { emptyQuery with mood := some "happy", energy_level := some 0.1 }
      (Except.ok none)).target_energy = some 0.1 := by
  have h := override_overwrites_mood
    { emptyQuery with mood := some "happy", energy_level := some 0.1 }
    (Except.ok none) 0.1 0 (by decide)
  exact ⟨by decide, h.2.2.2.2.2⟩

/-- C3: a resolved user profile with a preferences triple overwrites the
built seed's target_energy / target_danceability / target_valence with the
stored triple, and a non-empty favoriteGenres list replaces the genre seed
with at most its first 3 entries, discarding any request-time seed. -/
theorem profile_prefs_overwrite (q : RecQuery) (uid : String) (u : UserDoc) (p : Preferences)
    (huid : q.user_id = some uid) (hne : uid ≠ "") (hp : u.preferences = some p) :
    (buildSeeds q (Except.ok (some u))).target_energy = some p.energy
  ∧ (buildSeeds q (Except.ok (some u))).target_danceability = some p.danceability
  ∧ (buildSeeds q (Except.ok (some u))).target_valence = some p.valence
  ∧ (u.favoriteGenres ≠ [] →
      (buildSeeds q (Except.ok (some u))).seed_genres = some (u.favoriteGenres.take 3)) := by
  obtain ⟨nm, em, fg, prefs, st⟩ := u
  simp only at hp
  subst hp
  simp only [buildSeeds, seedsBeforeDefault, huid, applyProfileParam]
  rw [if_neg hne]
  simp only [applyProfile]
  by_cases hg : fg = []
  · rw [if_pos hg]
    exact ⟨applyDefaultGenres_target_energy _, applyDefaultGenres_target_danceability _,
      applyDefaultGenres_target_valence _, fun hfg => absurd hg hfg⟩
  · rw [if_neg hg, applyDefaultGenres_of_genres_some _ (fg.take 3) rfl]
    exact ⟨rfl, rfl, rfl, fun _ => rfl⟩

theorem profile_prefs_overwrite_witness :
    ({ emptyQuery with user_id := some "u1" } : RecQuery).user_id = some "u1"
  ∧ (buildSeeds { emptyQuery with user_id := some "u1" }
      (Except.ok (some
        { name := "a", email := "a@b.c", favoriteGenres := ["jazz"],
          preferences := some { energy := 0.9, danceability := 0.2, valence := 0.4 },
          savedTracks := [] }))).target_energy = some 0.9 := by
  have h := profile_prefs_overwrite { emptyQuery with user_id := some "u1" } "u1"
    { name := "a", email := "a@b.c", favoriteGenres := ["jazz"],
      preferences := some { energy := 0.9, danceability := 0.2, valence := 0.4 },
      savedTracks := [] }
    { energy := 0.9, danceability := 0.2, valence := 0.4 }
    rfl (by decide) rfl
  exact ⟨rfl, h.1⟩

/-- C4: the default genre seed `["pop","rock","hip-hop"]` is applied if and
only if none of seed_genres / seed_artists / seed_tracks is set after the
mood, override and profile steps; in particular `mood=energetic` with no
user id yields exactly target_energy 0.9, target_danceability 0.8 and the
default genre seed. -/
theorem default_genres_iff (q : RecQuery) (lookup : UserLookup) :
    ((seedsBeforeDefault q lookup).seed_genres = none
       ∧ (seedsBeforeDefault q lookup).seed_artists = none
       ∧ (seedsBeforeDefault q lookup).seed_tracks = none →
      buildSeeds q lookup
        = { seedsBeforeDefault q lookup with seed_genres := some ["pop", "rock", "hip-hop"] })
  ∧ (¬((seedsBeforeDefault q lookup).seed_genres = none
       ∧ (seedsBeforeDefault q lookup).seed_artists = none
       ∧ (seedsBeforeDefault q lookup).seed_tracks = none) →
      buildSeeds q lookup = seedsBeforeDefault q lookup)
  ∧ buildSeeds { emptyQuery with mood := some "energetic" } (Except.ok none)
      = { emptySeeds with
          target_energy := some 0.9
          target_danceability := some 0.8
          seed_genres := some ["pop", "rock", "hip-hop"] } := by
  refine ⟨fun h => ?_, fun h => ?_, ?_⟩
  · unfold buildSeeds applyDefaultGenres
    rw [if_pos]
    simp [h.1, h.2.1, h.2.2]
  · unfold buildSeeds applyDefaultGenres
    rw [if_neg]
    simpa only [Bool.and_eq_true, Option.isNone_iff_eq_none, and_assoc] using h
  · simp [buildSeeds, seedsBeforeDefault, applyProfileParam, applyOverrides, applyMoodParam,
      applyMood, applySeedParams, splitParam, applyDefaultGenres, emptyQuery, emptySeeds]

theorem default_genres_iff_witness :
    ((seedsBeforeDefault { emptyQuery with mood := some "energetic" }
        (Except.ok none)).seed_genres = none
      ∧ (seedsBeforeDefault { emptyQuery with mood := some "energetic" }
          (Except.ok none)).seed_artists = none
      ∧ (seedsBeforeDefault { emptyQuery with mood := some "energetic" }
          (Except.ok none)).seed_tracks = none)
  ∧ buildSeeds { emptyQuery with mood := some "energetic" } (Except.ok none)
      = { seedsBeforeDefault { emptyQuery with mood := some "energetic" } (Except.ok none) with
          seed_genres := some ["pop", "rock", "hip-hop"] } := by
  have h := default_genres_iff { emptyQuery with mood := some "energetic" } (Except.ok none)
  exact ⟨⟨by decide, by decide, by decide⟩, h.1 ⟨by decide, by decide, by decide⟩⟩

/-- C9: a recommendation request whose user lookup finds no profile or
fails does not fail: the personalization step is skipped, the seed equals
the one built from the mood, override and default steps alone, and the
handler still answers 200 with recommendations. -/
theorem profile_miss_degrades (q : RecQuery) (lookup : UserLookup) (recs : List String)
    (h : lookup = Except.ok none ∨ ∃ msg, lookup = Except.error msg) :
    buildSeeds q lookup = buildSeedsNoProfile q
  ∧ recommendationsHandler q lookup (Except.ok recs)
      = (200, some (recs, buildSeedsNoProfile q)) := by
  have hb : buildSeeds q lookup = buildSeedsNoProfile q := by
    unfold buildSeeds seedsBeforeDefault buildSeedsNoProfile
    congr 1
    rcases h with h | ⟨msg, h⟩ <;> subst h <;>
      unfold applyProfileParam applyProfile <;>
      cases q.user_id <;> simp
  refine ⟨hb, ?_⟩
  unfold recommendationsHandler
  rw [hb]

theorem profile_miss_degrades_witness :
    ((Except.error "boom" : UserLookup) = Except.ok none
      ∨ ∃ msg, (Except.error "boom" : UserLookup) = Except.error msg)
  ∧ buildSeeds { emptyQuery with user_id := some "u1" } (Except.error "boom")
      = buildSeedsNoProfile { emptyQuery with user_id := some "u1" } := by
  have h := profile_miss_degrades { emptyQuery with user_id := some "u1" }
    (Except.error "boom") [] (Or.inr ⟨"boom", rfl⟩)
  exact ⟨Or.inr ⟨"boom", rfl⟩, h.1⟩

end SpotifyProject


namespace SpotifyProject

/-- C8: adding a favorite whose trackId is already in savedTracks answers
400 and leaves savedTracks unchanged; removing a trackId that is not present
succeeds with the unchanged list; and both operations preserve uniqueness of
trackIds. -/
theorem favorites_trackId_unique (saved : List TrackRef) (t : TrackRef) (tid : String) :
    ((∃ x ∈ saved, x.trackId = t.trackId) → addFavorite saved t = (400, saved))
  ∧ ((∀ x ∈ saved, x.trackId ≠ tid) → removeFavorite saved tid = (200, saved))
  ∧ ((saved.map TrackRef.trackId).Nodup →
      ((addFavorite saved t).2.map TrackRef.trackId).Nodup
    ∧ ((removeFavorite saved tid).2.map TrackRef.trackId).Nodup) := by
  refine ⟨fun h => ?_, fun h => ?_, fun h => ⟨?_, ?_⟩⟩
  · unfold addFavorite
    rw [if_pos]
    rcases h with ⟨x, hx, he⟩
    exact List.any_eq_true.mpr ⟨x, hx, by simpa using he⟩
  · unfold removeFavorite
    have : saved.filter (fun x => x.trackId != tid) = saved := by
      rw [List.filter_eq_self]
      intro a ha
      simpa using h a ha
    rw [this]
  · unfold addFavorite
    by_cases hc : saved.any (fun x => x.trackId == t.trackId)
    · rw [if_pos hc]
      exact h
    · rw [if_neg hc]
      simp only [List.map_append, List.map_cons, List.map_nil]
      rw [List.nodup_append]
      refine ⟨h, List.nodup_singleton _, ?_⟩
      intro a ha hb
      simp only [List.mem_singleton] at hb
      subst hb
      rcases List.mem_map.mp ha with ⟨x, hx, hxa⟩
      rw [List.any_eq_true] at hc
      exact hc ⟨x, hx, by simp [hxa]⟩
  · unfold removeFavorite
    exact List.Nodup.sublist (List.Sublist.map _ (List.filter_sublist _)) h

theorem favorites_trackId_unique_witness :
    (∃ x ∈ [(⟨"t1", "n", "a", "al", "i", "p"⟩ : TrackRef)],
        x.trackId = (⟨"t1", "n2", "a2", "al2", "i2", "p2"⟩ : TrackRef).trackId)
  ∧ addFavorite [(⟨"t1", "n", "a", "al", "i", "p"⟩ : TrackRef)]
      ⟨"t1", "n2", "a2", "al2", "i2", "p2"⟩
      = (400, [(⟨"t1", "n", "a", "al", "i", "p"⟩ : TrackRef)]) := by
  have h := favorites_trackId_unique [(⟨"t1", "n", "a", "al", "i", "p"⟩ : TrackRef)]
    ⟨"t1", "n2", "a2", "al2", "i2", "p2"⟩ "t9"
  exact ⟨by decide, h.1 (by decide)⟩

/-- C10: `POST /api/users` with an email already in the store answers 200
(not 201) with the stored profile and performs no write: the store, and so
every stored profile's name, favoriteGenres, preferences and savedTracks,
is unchanged, and the body's name and favoriteGenres are ignored. -/
theorem create_user_existing_email (store : List UserDoc) (b : CreateUserBody)
    (h : ∃ u ∈ store, u.email = b.email) :
    (createUser store b).1 = 200
  ∧ (createUser store b).2.2 = store
  ∧ (createUser store b).2.1 ∈ store
  ∧ (createUser store b).2.1.email = b.email := by
  have hf : (store.find? (fun u => u.email == b.email)).isSome := by
    rw [List.find?_isSome]
    rcases h with ⟨u, hu, he⟩
    exact ⟨u, hu, by simpa using he⟩
  obtain ⟨u, hu⟩ := Option.isSome_iff_exists.mp hf
  unfold createUser
  rw [hu]
  have hm := List.mem_of_find?_eq_some hu
  have hp := List.find?_some hu
  exact ⟨rfl, rfl, hm, by simpa using hp⟩

def sampleStoredUser : UserDoc :=
  { name := "a"
    email := "a@b.c"
    favoriteGenres := ["pop"]
    preferences := none
    savedTracks := [] }

def sampleCreateBody : CreateUserBody :=
  { name := "x"
    email := "a@b.c"
    favoriteGenres := none }

theorem create_user_existing_email_witness :
    (∃ u ∈ [sampleStoredUser], u.email = sampleCreateBody.email)
  ∧ (createUser [sampleStoredUser] sampleCreateBody).1 = 200
  ∧ (createUser [sampleStoredUser] sampleCreateBody).2.2 = [sampleStoredUser] := by
  have h := create_user_existing_email [sampleStoredUser] sampleCreateBody (by decide)
  exact ⟨by decide, h.1, h.2.1⟩

end SpotifyProject

namespace SpotifyProject

/-- C6: `searchTracks` fails with a validation-class error and no network
call for every query whose trim is empty; for a non-blank query it uses
limit 20 by default, returns the `tracks.items` sequence as ordered
upstream, and fails with an upstream-class error when the response lacks
`tracks` or `tracks.items`. -/
theorem search_empty_query_rejected (query : String) (lim : Nat)
    (upstream : Except String SearchResponse) (items : List String) :
    (jsTrim query = "" →
      searchTracks query lim upstream
        = { networkCall := false
            limitUsed := none
            result := .error (.validation "Search query cannot be empty") })
  ∧ (jsTrim query ≠ "" →
      searchTracksDefault query upstream = searchTracks query 20 upstream
      ∧ (searchTracksDefault query upstream).limitUsed = some 20
      ∧ searchTracks query lim (.ok { tracks := some { items := some items } })
          = { networkCall := true, limitUsed := some lim, result := .ok items }
      ∧ searchTracks query lim (.ok { tracks := none })
          = { networkCall := true
              limitUsed := some lim
              result := .error (.upstream "Invalid search response format") }
      ∧ searchTracks query lim (.ok { tracks := some { items := none } })
          = { networkCall := true
              limitUsed := some lim
              result := .error (.upstream "Invalid search response format") }) := by
  constructor
  · intro h
    unfold searchTracks
    rw [if_pos h]
  · intro h
    refine ⟨rfl, ?_, ?_, ?_, ?_⟩
    · unfold searchTracksDefault searchTracks
      rw [if_neg h]
      rcases upstream with e | resp
      · rfl
      · rcases resp with ⟨tr⟩
        rcases tr with _ | ⟨it⟩
        · rfl
        · rcases it with _ | its <;> rfl
    · unfold searchTracks
      rw [if_neg h]
    · unfold searchTracks
      rw [if_neg h]
    · unfold searchTracks
      rw [if_neg h]

theorem search_empty_query_rejected_witness :
    jsTrim "   " = ""
  ∧ searchTracks "   " 20 (Except.error "net")
      = { networkCall := false
          limitUsed := none
          result := .error (.validation "Search query cannot be empty") }
  ∧ jsTrim "abba" ≠ ""
  ∧ searchTracks "abba" 20 (.ok { tracks := some { items := some ["x", "y"] } })
      = { networkCall := true, limitUsed := some 20, result := .ok ["x", "y"] } := by
  have h1 := search_empty_query_rejected "   " 20 (Except.error "net") []
  have h2 := search_empty_query_rejected "abba" 20 (Except.error "net") ["x", "y"]
  exact ⟨by decide, h1.1 (by decide), by decide, (h2.2 (by decide)).2.2.1⟩

/-- C7: `getAccessToken` returns the cached token verbatim with no network
call whenever a token is cached and `now < expiresAt`; it performs the
client-credentials exchange exactly when the cache is empty or
`now >= expiresAt`; a successful exchange stores expiry
`now + (expires_in - 60s)`, so a token stored by an exchange at `t0` with
lifetime `expires_in` is never served within 60 seconds of its real
expiry `t0 + expires_in`. -/
theorem token_cache_contract (c : TokenCache) (now : ℤ) (w : TokenWire)
    (t : String) (lifetime t0 : ℤ)
    (hnow : 0 ≤ now)
    (htok : c.accessToken ≠ some "") :
    (cacheValid c now = true →
      getAccessToken c now w = (c, .ok (c.accessToken.getD ""), false))
  ∧ ((getAccessToken c now w).2.2 = true ↔
      (c.accessToken = none ∨ c.tokenExpiry = none
        ∨ ∃ e, c.tokenExpiry = some e ∧ e ≤ now))
  ∧ (cacheValid c now = false → t ≠ "" →
      getAccessToken c now
          (.response 200 (some { access_token := some t, expires_in := lifetime }))
        = ({ accessToken := some t
             tokenExpiry := some (now + (lifetime - 60) * 1000) }, .ok t, true))
  ∧ (c.tokenExpiry = some (t0 + (lifetime - 60) * 1000) → cacheValid c now = true →
      now + 60 * 1000 < t0 + lifetime * 1000) := by
  have hnet : (getAccessToken c now w).2.2 = !(cacheValid c now) := by
    unfold getAccessToken
    by_cases hv : cacheValid c now
    · rw [if_pos hv, hv]
      rfl
    · rw [if_neg hv]
      simp only [Bool.not_eq_true']
      simpa using hv
  refine ⟨fun hv => ?_, ?_, fun hv ht => ?_, fun he hv => ?_⟩
  · unfold getAccessToken
    rw [if_pos hv]
  · rw [hnet]
    rcases c with ⟨tok, exp⟩
    rcases tok with _ | s
    · simp [cacheValid]
    · rcases exp with _ | e
      · simp [cacheValid]
      · have hs : s ≠ "" := fun hrfl => htok (by simp [hrfl])
        simp only [cacheValid, Bool.not_eq_true', Bool.and_eq_false_iff]
        simp only [bne_eq_false_iff_eq, decide_eq_false_iff_not, not_lt]
        constructor
        · intro hcase
          rcases hcase with (hcase | hcase) | hcase
          · exact absurd hcase hs
          · exact Or.inr (Or.inr ⟨e, rfl, by omega⟩)
          · exact Or.inr (Or.inr ⟨e, rfl, hcase⟩)
        · intro hcase
          rcases hcase with hcase | hcase | ⟨e', he', hle⟩
          · exact absurd hcase (by simp)
          · exact absurd hcase (by simp)
          · simp only [Option.some.injEq] at he'
            subst he'
            by_cases hz : e = 0
            · exact Or.inl (Or.inr hz)
            · exact Or.inr hle
  · unfold getAccessToken
    rw [if_neg (by simp [hv])]
    unfold refreshAccessToken
    simp [ht]
  · rcases c with ⟨tok, exp⟩
    simp only at he
    subst he
    rcases tok with _ | s
    · simp [cacheValid] at hv
    · simp only [cacheValid, Bool.and_eq_true, bne_iff_ne, ne_eq, decide_eq_true_eq] at hv
      omega

def cachedSample : TokenCache :=
  { accessToken := some "tok"
    tokenExpiry := some 1000000 }

theorem token_cache_contract_witness :
    (0 : ℤ) ≤ 5
  ∧ cachedSample.accessToken ≠ some ""
  ∧ cacheValid cachedSample 5 = true
  ∧ getAccessToken cachedSample 5 (.transportError "x")
      = (cachedSample, .ok "tok", false) := by
  have h := token_cache_contract cachedSample 5 (.transportError "x") "t" 3600 0
    (by decide) (by decide)
  exact ⟨by decide, by decide, by decide, h.1 (by decide)⟩

end SpotifyProject


namespace SpotifyProject

/-- The parameter names of a serialized recommendations request, in order. -/
def recKeys (s : Seeds) : List String := (getRecommendationsParams s).map Prod.fst

theorem mem_optNumParam (k k' : String) (v : ParamValue) (o : Option ℚ) :
    (k', v) ∈ optNumParam k o ↔ k' = k ∧ ∃ q, o = some q ∧ v = ParamValue.num q := by
  cases o <;> simp [optNumParam]

theorem mem_map_fst_optNumParam (k k' : String) (o : Option ℚ) :
    k' ∈ (optNumParam k o).map Prod.fst ↔ k' = k ∧ o.isSome := by
  cases o <;> simp [optNumParam]

theorem mem_map_fst_seedKindParams (s : Seeds) (k : String)
    (h : k ∈ (seedKindParams s).map Prod.fst) :
    k = "seed_genres" ∨ k = "seed_artists" ∨ k = "seed_tracks" := by
  rcases hg : s.seed_genres with _ | gs <;>
    rcases ha : s.seed_artists with _ | arts <;>
      rcases ht : s.seed_tracks with _ | trks <;>
        simp [seedKindParams, hg, ha, ht] at h <;>
          simp [h]

theorem seedKindParams_num_not_mem (s : Seeds) (k : String) (v : ℚ) :
    (k, ParamValue.num v) ∉ seedKindParams s := by
  rcases hg : s.seed_genres with _ | gs <;>
    rcases ha : s.seed_artists with _ | arts <;>
      rcases ht : s.seed_tracks with _ | trks <;>
        simp [seedKindParams, hg, ha, ht]

theorem seedKindParams_limit_not_mem (s : Seeds) (pv : ParamValue) :
    ("limit", pv) ∉ seedKindParams s := by
  rcases hg : s.seed_genres with _ | gs <;>
    rcases ha : s.seed_artists with _ | arts <;>
      rcases ht : s.seed_tracks with _ | trks <;>
        simp [seedKindParams, hg, ha, ht]

theorem mem_recKeys (s : Seeds) (k : String) (h : k ∈ recKeys s) :
    k ∈ allowedParamKeys := by
  unfold recKeys getRecommendationsParams at h
  simp only [List.map_append, List.mem_append, mem_map_fst_optNumParam, List.map_cons,
    List.map_nil, List.mem_cons, List.not_mem_nil, or_false, or_assoc] at h
  rcases h with h | ⟨rfl, -⟩ | ⟨rfl, -⟩ | ⟨rfl, -⟩ | ⟨rfl, -⟩ | ⟨rfl, -⟩ | ⟨rfl, -⟩ |
    ⟨rfl, -⟩ | ⟨rfl, -⟩ | ⟨rfl, -⟩ | ⟨rfl, -⟩ | ⟨rfl, -⟩ | ⟨rfl, -⟩ | rfl | rfl
  · rcases mem_map_fst_seedKindParams s k h with rfl | rfl | rfl <;> decide
  all_goals decide

end SpotifyProject

namespace SpotifyProject

/-- C5: `getRecommendations` serializes exactly the spec's parameter list:
every emitted key is one of the 17 allowed names, `min_instrumentalness` is
never emitted, exactly one seed kind is populated with genres taking
precedence over artists over tracks (comma-joined, defaulting to
`pop,rock,hip-hop`), each numeric `target_*`/`min_*`/`max_*` field is
emitted with its value exactly when defined, `limit` is always the fixed
string `20` and `market` is `US`, and the seed's `limit` and
`min_instrumentalness` fields never influence the request. -/
theorem rec_params_serialization (s : Seeds) (gs arts trks : List String) (v : ℚ) :
    (∀ k ∈ recKeys s, k ∈ allowedParamKeys)
  ∧ "min_instrumentalness" ∉ recKeys s
  ∧ (s.seed_genres = some gs →
      ("seed_genres", ParamValue.str (String.intercalate "," gs)) ∈ getRecommendationsParams s
      ∧ "seed_artists" ∉ recKeys s ∧ "seed_tracks" ∉ recKeys s)
  ∧ (s.seed_genres = none → s.seed_artists = some arts →
      ("seed_artists", ParamValue.str (String.intercalate "," arts)) ∈ getRecommendationsParams s
      ∧ "seed_genres" ∉ recKeys s ∧ "seed_tracks" ∉ recKeys s)
  ∧ (s.seed_genres = none → s.seed_artists = none → s.seed_tracks = some trks →
      ("seed_tracks", ParamValue.str (String.intercalate "," trks)) ∈ getRecommendationsParams s
      ∧ "seed_genres" ∉ recKeys s ∧ "seed_artists" ∉ recKeys s)
  ∧ (s.seed_genres = none → s.seed_artists = none → s.seed_tracks = none →
      ("seed_genres", ParamValue.str "pop,rock,hip-hop") ∈ getRecommendationsParams s
      ∧ "seed_artists" ∉ recKeys s ∧ "seed_tracks" ∉ recKeys s)
  ∧ (("target_energy", ParamValue.num v) ∈ getRecommendationsParams s
      ↔ s.target_energy = some v)
  ∧ (("target_danceability", ParamValue.num v) ∈ getRecommendationsParams s
      ↔ s.target_danceability = some v)
  ∧ (("target_valence", ParamValue.num v) ∈ getRecommendationsParams s
      ↔ s.target_valence = some v)
  ∧ (("target_popularity", ParamValue.num v) ∈ getRecommendationsParams s
      ↔ s.target_popularity = some v)
  ∧ (("min_energy", ParamValue.num v) ∈ getRecommendationsParams s
      ↔ s.min_energy = some v)
  ∧ (("max_energy", ParamValue.num v) ∈ getRecommendationsParams s
      ↔ s.max_energy = some v)
  ∧ (("min_danceability", ParamValue.num v) ∈ getRecommendationsParams s
      ↔ s.min_danceability = some v)
  ∧ (("max_danceability", ParamValue.num v) ∈ getRecommendationsParams s
      ↔ s.max_danceability = some v)
  ∧ (("min_valence", ParamValue.num v) ∈ getRecommendationsParams s
      ↔ s.min_valence = some v)
  ∧ (("max_valence", ParamValue.num v) ∈ getRecommendationsParams s
      ↔ s.max_valence = some v)
  ∧ (("min_tempo", ParamValue.num v) ∈ getRecommendationsParams s
      ↔ s.min_tempo = some v)
  ∧ (("max_tempo", ParamValue.num v) ∈ getRecommendationsParams s
      ↔ s.max_tempo = some v)
  ∧ ("limit", ParamValue.str "20") ∈ getRecommendationsParams s
  ∧ (∀ pv, ("limit", pv) ∈ getRecommendationsParams s → pv = ParamValue.str "20")
  ∧ ("market", ParamValue.str "US") ∈ getRecommendationsParams s
  ∧ (∀ w z,
      getRecommendationsParams
        { s with limit := w, min_instrumentalness := z } = getRecommendationsParams s) := by
  refine ⟨mem_recKeys s, ?_, fun hg => ⟨?_, ?_, ?_⟩, fun hg ha => ⟨?_, ?_, ?_⟩,
    fun hg ha ht => ⟨?_, ?_, ?_⟩, fun hg ha ht => ⟨?_, ?_, ?_⟩,
    ?_, ?_, ?_, ?_, ?_, ?_, ?_, ?_, ?_, ?_, ?_, ?_, ?_, ?_, ?_, fun w z => rfl⟩
  · intro hk
    have := mem_recKeys s _ hk
    revert this
    decide
  · simp [getRecommendationsParams, seedKindParams, hg]
  · intro hk
    simp [recKeys, getRecommendationsParams, seedKindParams, hg,
      mem_map_fst_optNumParam, mem_optNumParam] at hk
  · intro hk
    simp [recKeys, getRecommendationsParams, seedKindParams, hg,
      mem_map_fst_optNumParam, mem_optNumParam] at hk
  · simp [getRecommendationsParams, seedKindParams, hg, ha]
  · intro hk
    simp [recKeys, getRecommendationsParams, seedKindParams, hg, ha,
      mem_map_fst_optNumParam, mem_optNumParam] at hk
  · intro hk
    simp [recKeys, getRecommendationsParams, seedKindParams, hg, ha,
      mem_map_fst_optNumParam, mem_optNumParam] at hk
  · simp [getRecommendationsParams, seedKindParams, hg, ha, ht]
  · intro hk
    simp [recKeys, getRecommendationsParams, seedKindParams, hg, ha, ht,
      mem_map_fst_optNumParam, mem_optNumParam] at hk
  · intro hk
    simp [recKeys, getRecommendationsParams, seedKindParams, hg, ha, ht,
      mem_map_fst_optNumParam, mem_optNumParam] at hk
  · simp [getRecommendationsParams, seedKindParams, hg, ha, ht]
  · intro hk
    simp [recKeys, getRecommendationsParams, seedKindParams, hg, ha, ht,
      mem_map_fst_optNumParam, mem_optNumParam] at hk
  · intro hk
    simp [recKeys, getRecommendationsParams, seedKindParams, hg, ha, ht,
      mem_map_fst_optNumParam, mem_optNumParam] at hk
  · simp [getRecommendationsParams, List.mem_append, mem_optNumParam,
      seedKindParams_num_not_mem]
  · simp [getRecommendationsParams, List.mem_append, mem_optNumParam,
      seedKindParams_num_not_mem]
  · simp [getRecommendationsParams, List.mem_append, mem_optNumParam,
      seedKindParams_num_not_mem]
  · simp [getRecommendationsParams, List.mem_append, mem_optNumParam,
      seedKindParams_num_not_mem]
  · simp [getRecommendationsParams, List.mem_append, mem_optNumParam,
      seedKindParams_num_not_mem]
  · simp [getRecommendationsParams, List.mem_append, mem_optNumParam,
      seedKindParams_num_not_mem]
  · simp [getRecommendationsParams, List.mem_append, mem_optNumParam,
      seedKindParams_num_not_mem]
  · simp [getRecommendationsParams, List.mem_append, mem_optNumParam,
      seedKindParams_num_not_mem]
  · simp [getRecommendationsParams, List.mem_append, mem_optNumParam,
      seedKindParams_num_not_mem]
  · simp [getRecommendationsParams, List.mem_append, mem_optNumParam,
      seedKindParams_num_not_mem]
  · simp [getRecommendationsParams, List.mem_append, mem_optNumParam,
      seedKindParams_num_not_mem]
  · simp [getRecommendationsParams, List.mem_append, mem_optNumParam,
      seedKindParams_num_not_mem]
  · simp [getRecommendationsParams]
  · intro pv hm
    simp [getRecommendationsParams, List.mem_append, mem_optNumParam,
      seedKindParams_limit_not_mem] at hm
    exact hm
  · simp [getRecommendationsParams]

def sampleSeeds : Seeds := { emptySeeds with seed_genres := some ["pop"] }

theorem rec_params_serialization_witness :
    sampleSeeds.seed_genres = some ["pop"]
  ∧ ("seed_genres", ParamValue.str (String.intercalate "," ["pop"]))
      ∈ getRecommendationsParams sampleSeeds
  ∧ "seed_artists" ∉ recKeys sampleSeeds
  ∧ "min_instrumentalness" ∉ recKeys sampleSeeds := by
  have h := rec_params_serialization sampleSeeds ["pop"] [] [] 0
  have h3 := h.2.2.1 rfl
  exact ⟨rfl, h3.1, h3.2.1, h.2.1⟩

end SpotifyProject
